import Mathlib

/-!
Shallow embedding of the missing-data and statistics core of
`msc_pygeoapi/process/cccs/climate_stats.py` (namespace `ClimateStats`) and
of its near-duplicate script `msc_pygeoapi/process/cccs/test.py`
(namespace `TestPy`), together with proofs of the specification claims.

Observation values are modelled as `Option ℚ` (`none` is the Python `None`
missing sentinel; numeric values are rationals). Python runtime exceptions
are modelled by an explicit error type, and fallible code returns `Except`.
-/

namespace ClimateStats

/-- Python runtime exceptions raised by the module. -/
inductive PyError where
  | nameError (n : String)
  | unboundLocalError (n : String)
  | typeError (msg : String)
  | zeroDivisionError
deriving DecidableEq, Repr

/-- The Python value of `input_missing_data_option`: `None`, an int, or a
string, as supplied by the callers (`None`, 5, 10, 15, `"WMO"`, or anything
else). -/
inductive MissingDataOption where
  | pyNone
  | int (n : ℤ)
  | str (s : String)
deriving DecidableEq, Repr

/-- The accumulator loop of `calculate_missing_days`:
`for value in data: if value is None: missing_days += 1`. -/
def missing_scan : ℕ → List (Option ℚ) → ℕ
  | acc, [] => acc
  | acc, none :: rest => missing_scan (acc + 1) rest
  | acc, some _ :: rest => missing_scan acc rest

/-- `calculate_missing_days(data)` from `climate_stats.py`: counts the
entries of `data` equal to the missing sentinel. -/
def calculate_missing_days (data : List (Option ℚ)) : ℕ :=
  missing_scan 0 data

/-- The loop of `calculate_consecutive_missing_days`, carrying the running
run counter and the running maximum: on `None` the counter is incremented
and the maximum updated, on any other value the counter resets to 0. -/
def consecutive_scan : ℕ → ℕ → List (Option ℚ) → ℕ
  | _, maxv, [] => maxv
  | cur, maxv, none :: rest => consecutive_scan (cur + 1) (max maxv (cur + 1)) rest
  | _, maxv, some _ :: rest => consecutive_scan 0 maxv rest

/-- `calculate_consecutive_missing_days(data)` from `climate_stats.py`:
the left-to-right scan returning the largest run of consecutive missing
entries seen. -/
def calculate_consecutive_missing_days (data : List (Option ℚ)) : ℕ :=
  consecutive_scan 0 0 data

/-- `check_missing_data_options` from `climate_stats.py`. The `elif` chain
is mirrored literally. In the three percentage branches the f-string built
when `missing_data_percentage > option` refers to the name
`percentage_missing_data`, which is not defined in this file of the source
(the parameter is called `missing_data_percentage` there), so evaluating
that branch raises `NameError`; an unrecognized option falls through the
chain and the final `return missing_data_option_status` raises
`UnboundLocalError`. Both exceptions are re-raised by the `except` block. -/
def check_missing_data_options (input_missing_data_option : MissingDataOption)
    (missing_data_percentage : ℚ) (missing_days consecutive_missing_days : ℕ) :
    Except PyError String :=
  if input_missing_data_option = .pyNone then .ok "None"
  else if input_missing_data_option = .int 5 then
    if missing_data_percentage > 5 then .error (.nameError "percentage_missing_data")
    else .ok "OK"
  else if input_missing_data_option = .int 10 then
    if missing_data_percentage > 10 then .error (.nameError "percentage_missing_data")
    else .ok "OK"
  else if input_missing_data_option = .int 15 then
    if missing_data_percentage > 15 then .error (.nameError "percentage_missing_data")
    else .ok "OK"
  else if input_missing_data_option = .str "WMO" then
    if missing_days = 0 ∨ consecutive_missing_days = 0 then .ok "OK"
    else if missing_days ≥ 11 ∨ consecutive_missing_days ≥ 5 then
      .ok "WMO criteria met: Missing or invalid month"
    else .ok "OK"
  else .error (.unboundLocalError "missing_data_option_status")

/-- Python `round(x, 2)`: round to two decimal places. -/
def round2 (x : ℚ) : ℚ := (round (x * 100) : ℤ) / 100

/-- The statistics dictionary returned by `calculate_statistics`. -/
structure Statistics where
  total : ℕ
  mean : Option ℚ
  max : Option ℚ
  min : Option ℚ
  threshold : ℚ
  count_above : Option ℕ
  count_below : Option ℕ
  count_equal : Option ℕ
deriving DecidableEq, Repr

/-- Python `max(list)` on a list of rationals (`none` on the empty list,
where Python would raise). -/
def python_max : List ℚ → Option ℚ
  | [] => none
  | x :: xs => some (xs.foldl Max.max x)

/-- Python `min(list)` on a list of rationals. -/
def python_min : List ℚ → Option ℚ
  | [] => none
  | x :: xs => some (xs.foldl Min.min x)

/-- `calculate_statistics(calculations, values_results_list,
manual_value_threshold)` from `climate_stats.py`: missing entries are
discarded first; each field is computed only when its calculation name was
requested and the filtered list is non-empty, and is `None` otherwise. -/
def calculate_statistics (calculations : List String)
    (values_results_list : List (Option ℚ)) (manual_value_threshold : ℚ) :
    Statistics :=
  let vs := values_results_list.filterMap id
  if vs ≠ [] then
    { total := vs.length
      mean := if "mean" ∈ calculations then
          some (round2 (vs.sum / vs.length)) else none
      max := if "max" ∈ calculations then python_max vs else none
      min := if "min" ∈ calculations then python_min vs else none
      threshold := manual_value_threshold
      count_above := if "count above threshold" ∈ calculations then
          some (vs.countP (fun v => decide (v > manual_value_threshold))) else none
      count_below := if "count below threshold" ∈ calculations then
          some (vs.countP (fun v => decide (v < manual_value_threshold))) else none
      count_equal := if "count equal threshold" ∈ calculations then
          some (vs.countP (fun v => decide (v = manual_value_threshold))) else none }
  else
    { total := vs.length, mean := none, max := none, min := none,
      threshold := manual_value_threshold,
      count_above := none, count_below := none, count_equal := none }

/-- A per-record station identity tuple
`(STATION_NAME, STN_ID, geometry coordinates)`. -/
structure StationInfo where
  station_name : String
  stn_id : ℤ
  coordinates : List ℚ
deriving DecidableEq, Repr

/-- The deduplication loop of `climate_stats()`:
`if station_info not in unique_stations: unique_stations.append(...)`. -/
def unique_stations (station_infos : List StationInfo) : List StationInfo :=
  station_infos.foldl
    (fun acc station_info =>
      if station_info ∈ acc then acc else acc ++ [station_info]) []

/-- A Python value flowing into `calculate_consecutive_missing_days` at its
call site: either an int or a list of observation values. -/
inductive PyVal where
  | intVal (n : ℕ)
  | listVal (l : List (Option ℚ))

/-- Dynamic behaviour of `calculate_consecutive_missing_days` on an
arbitrary Python argument: its `for value in data` loop iterates a list,
and raises `TypeError` when handed an int. -/
def calculate_consecutive_missing_days_dyn : PyVal → Except PyError ℕ
  | .listVal l => .ok (calculate_consecutive_missing_days l)
  | .intVal _ => .error (.typeError "int object is not iterable")

/-- The consecutive-missing-days step of `climate_stats()`:
`missing_days = calculate_missing_days(valuesResultsList)` followed by
`consecutive_missing_days = calculate_consecutive_missing_days(missing_days)`
— the int `missing_days` is what is passed, not the value list. -/
def climate_stats_consecutive_step (valuesResultsList : List (Option ℚ)) :
    Except PyError ℕ :=
  let missing_days := calculate_missing_days valuesResultsList
  calculate_consecutive_missing_days_dyn (.intVal missing_days)

/-- The percentage step of `climate_stats()`:
`missing_data_percentage = round(((missing_data / es_count) * 100), 2)`,
where the Python division raises `ZeroDivisionError` when `es_count` is 0. -/
def climate_stats_percentage_step (missing_data es_count : ℕ) :
    Except PyError ℚ :=
  if es_count = 0 then .error .zeroDivisionError
  else .ok (round2 ((missing_data : ℚ) / (es_count : ℚ) * 100))

/-- Spec-side definition (for refinement): the lengths of the maximal
contiguous runs of the missing sentinel in the sequence, left to right. -/
def spec_missing_runs : List (Option ℚ) → List ℕ
  | [] => []
  | some _ :: rest => spec_missing_runs rest
  | none :: rest =>
      ((rest.takeWhile Option.isNone).length + 1) ::
        spec_missing_runs (rest.dropWhile Option.isNone)
termination_by l => l.length
decreasing_by
  · simp only [List.length_cons]; omega
  · simp only [List.length_cons]
    exact Nat.lt_succ_of_le (List.Sublist.length_le (List.dropWhile_sublist _))

/-- Spec-side definition: the maximum, over all maximal contiguous runs of
the missing sentinel, of that run's length (0 when there is none). -/
def spec_max_run (l : List (Option ℚ)) : ℕ :=
  (spec_missing_runs l).foldr max 0

/-- Spec-side definition: the distinct elements of a list in first-seen
order (each element keeps its first occurrence; later duplicates drop). -/
def spec_first_seen_distinct : List StationInfo → List StationInfo
  | [] => []
  | x :: xs => x :: spec_first_seen_distinct (xs.filter (fun y => decide (y ≠ x)))
termination_by l => l.length
decreasing_by
  simp only [List.length_cons]
  exact Nat.lt_succ_of_le (List.length_filter_le _ _)

/-- Spec-side definition: `round(100 * missing_count / total_record_count, 2)`
as written in the specification. -/
def spec_missing_percentage (missing_count total_record_count : ℕ) : ℚ :=
  round2 (100 * (missing_count : ℚ) / (total_record_count : ℚ))

end ClimateStats

namespace TestPy

open ClimateStats (PyError MissingDataOption)

/-- The filtered-status f-string of `check_missing_data_options` in
`test.py`, carrying the percentage and the option value. -/
def filtered_message (percentage_missing_data : ℚ)
    (input_missing_data_option : ℤ) : String :=
  "The input missing data option filtered this result: " ++
    "percentage missing data > input missing data option: " ++
    toString percentage_missing_data ++ " > " ++
    toString input_missing_data_option

/-- `check_missing_data_options` from `test.py`. Identical to the
`climate_stats.py` version except that its percentage parameter is named
`percentage_missing_data`, so the filtered f-string evaluates and the
branch returns the descriptive string instead of raising `NameError`. -/
def check_missing_data_options (input_missing_data_option : MissingDataOption)
    (percentage_missing_data : ℚ) (missing_days consecutive_missing_days : ℕ) :
    Except PyError String :=
  if input_missing_data_option = .pyNone then .ok "None"
  else if input_missing_data_option = .int 5 then
    if percentage_missing_data > 5 then
      .ok (filtered_message percentage_missing_data 5)
    else .ok "OK"
  else if input_missing_data_option = .int 10 then
    if percentage_missing_data > 10 then
      .ok (filtered_message percentage_missing_data 10)
    else .ok "OK"
  else if input_missing_data_option = .int 15 then
    if percentage_missing_data > 15 then
      .ok (filtered_message percentage_missing_data 15)
    else .ok "OK"
  else if input_missing_data_option = .str "WMO" then
    if missing_days = 0 ∨ consecutive_missing_days = 0 then .ok "OK"
    else if missing_days ≥ 11 ∨ consecutive_missing_days ≥ 5 then
      .ok "WMO criteria met: Missing or invalid month"
    else .ok "OK"
  else .error (.unboundLocalError "missing_data_option_status")

end TestPy

namespace ClimateStats

lemma missing_scan_acc (l : List (Option ℚ)) :
    ∀ acc, missing_scan acc l = acc + missing_scan 0 l := by
  induction l with
  | nil => intro acc; simp [missing_scan]
  | cons x rest ih =>
    intro acc
    cases x with
    | none => simp only [missing_scan]; rw [ih (acc + 1), ih 1]; omega
    | some v => simp only [missing_scan]; exact ih acc

lemma calculate_missing_days_eq_zero_iff (l : List (Option ℚ)) :
    calculate_missing_days l = 0 ↔ ∀ x ∈ l, x ≠ none := by
  induction l with
  | nil => simp [calculate_missing_days, missing_scan]
  | cons x rest ih =>
    cases x with
    | none =>
      simp only [calculate_missing_days, missing_scan] at *
      rw [missing_scan_acc rest 1]
      simp
    | some v =>
      simp only [calculate_missing_days, missing_scan] at *
      rw [ih]
      simp

lemma takeWhile_replicate_append (c : ℕ) (l : List (Option ℚ)) :
    ((List.replicate c (none : Option ℚ)) ++ l).takeWhile Option.isNone
      = List.replicate c none ++ l.takeWhile Option.isNone := by
  induction c with
  | zero => simp
  | succ c ih => simp [List.replicate_succ, List.takeWhile_cons, ih]

lemma dropWhile_replicate_append (c : ℕ) (l : List (Option ℚ)) :
    ((List.replicate c (none : Option ℚ)) ++ l).dropWhile Option.isNone
      = l.dropWhile Option.isNone := by
  induction c with
  | zero => simp
  | succ c ih => simp [List.replicate_succ, List.dropWhile_cons, ih]

lemma spec_missing_runs_some (v : ℚ) (rest : List (Option ℚ)) :
    spec_missing_runs (some v :: rest) = spec_missing_runs rest := by
  simp [spec_missing_runs]

lemma spec_missing_runs_none (rest : List (Option ℚ)) :
    spec_missing_runs (none :: rest)
      = ((rest.takeWhile Option.isNone).length + 1) ::
          spec_missing_runs (rest.dropWhile Option.isNone) := by
  simp [spec_missing_runs]

lemma spec_max_run_some (v : ℚ) (rest : List (Option ℚ)) :
    spec_max_run (some v :: rest) = spec_max_run rest := by
  simp [spec_max_run, spec_missing_runs_some]

lemma spec_max_run_replicate_succ (c : ℕ) (l : List (Option ℚ)) :
    spec_max_run (List.replicate (c + 1) none ++ l)
      = max (c + 1 + (l.takeWhile Option.isNone).length)
          (spec_max_run (l.dropWhile Option.isNone)) := by
  rw [List.replicate_succ, List.cons_append]
  simp only [spec_max_run, spec_missing_runs_none, takeWhile_replicate_append,
    dropWhile_replicate_append, List.foldr_cons, List.length_append,
    List.length_replicate]
  congr 1
  omega

lemma spec_max_run_replicate (c : ℕ) :
    spec_max_run (List.replicate c (none : Option ℚ)) = c := by
  cases c with
  | zero => simp [spec_max_run, spec_missing_runs]
  | succ c =>
    have h := spec_max_run_replicate_succ c []
    simp only [List.append_nil, List.takeWhile_nil, List.dropWhile_nil,
      List.length_nil, Nat.add_zero] at h
    rw [h]
    have h0 : spec_max_run ([] : List (Option ℚ)) = 0 := by
      simp [spec_max_run, spec_missing_runs]
    rw [h0]
    omega

lemma spec_max_run_replicate_cons_some (c : ℕ) (v : ℚ) (rest : List (Option ℚ)) :
    spec_max_run (List.replicate c none ++ some v :: rest)
      = max c (spec_max_run rest) := by
  cases c with
  | zero => simp [spec_max_run_some]
  | succ c =>
    rw [spec_max_run_replicate_succ c (some v :: rest)]
    simp [spec_max_run_some, List.takeWhile_cons, List.dropWhile_cons]

lemma spec_max_run_replicate_ge (c : ℕ) (l : List (Option ℚ)) :
    c ≤ spec_max_run (List.replicate c none ++ l) := by
  cases c with
  | zero => exact Nat.zero_le _
  | succ c =>
    rw [spec_max_run_replicate_succ c l]
    exact le_trans (by omega) (le_max_left _ _)

lemma consecutive_scan_eq (l : List (Option ℚ)) :
    ∀ cur maxv, cur ≤ maxv →
      consecutive_scan cur maxv l
        = max maxv (spec_max_run (List.replicate cur none ++ l)) := by
  induction l with
  | nil =>
    intro cur maxv h
    simp only [consecutive_scan, List.append_nil, spec_max_run_replicate]
    omega
  | cons x rest ih =>
    intro cur maxv h
    cases x with
    | none =>
      simp only [consecutive_scan]
      rw [ih (cur + 1) (max maxv (cur + 1)) (le_max_right _ _)]
      have hrw : List.replicate cur (none : Option ℚ) ++ none :: rest
          = List.replicate (cur + 1) none ++ rest := by
        rw [List.replicate_succ']
        simp
      rw [hrw]
      have hge : cur + 1 ≤ spec_max_run (List.replicate (cur + 1) none ++ rest) :=
        spec_max_run_replicate_ge (cur + 1) rest
      omega
    | some v =>
      simp only [consecutive_scan]
      rw [ih 0 maxv (Nat.zero_le _)]
      simp only [List.replicate_zero, List.nil_append,
        spec_max_run_replicate_cons_some]
      omega

lemma ccmd_eq_spec_max_run (l : List (Option ℚ)) :
    calculate_consecutive_missing_days l = spec_max_run l := by
  unfold calculate_consecutive_missing_days
  rw [consecutive_scan_eq l 0 0 (le_refl 0)]
  simp

lemma spec_max_run_eq_zero_iff (l : List (Option ℚ)) :
    spec_max_run l = 0 ↔ ∀ x ∈ l, x ≠ none := by
  induction l with
  | nil => simp [spec_max_run, spec_missing_runs]
  | cons x rest ih =>
    cases x with
    | none =>
      simp only [spec_max_run, spec_missing_runs_none, List.foldr_cons]
      constructor
      · intro hmax; omega
      · intro hall
        exact absurd rfl (hall none (List.mem_cons_self _ _))
    | some v =>
      rw [spec_max_run_some, ih]
      simp

lemma ccmd_eq_zero_iff (l : List (Option ℚ)) :
    calculate_consecutive_missing_days l = 0 ↔ ∀ x ∈ l, x ≠ none := by
  rw [ccmd_eq_spec_max_run, spec_max_run_eq_zero_iff]

end ClimateStats

namespace ClimateStats

lemma foldl_max_mem (xs : List ℚ) : ∀ x, xs.foldl Max.max x ∈ x :: xs := by
  induction xs with
  | nil => intro x; simp
  | cons y ys ih =>
    intro x
    have h := ih (Max.max x y)
    rcases max_choice x y with hc | hc <;>
      · rw [List.foldl_cons]
        rcases List.mem_cons.mp h with h1 | h1 <;> simp [hc] at h1 ⊢ <;> simp [h1]

lemma le_foldl_max (xs : List ℚ) : ∀ x, ∀ y ∈ x :: xs, y ≤ xs.foldl Max.max x := by
  induction xs with
  | nil => intro x y hy; simp at hy; simp [hy]
  | cons z zs ih =>
    intro x y hy
    rw [List.foldl_cons]
    rcases List.mem_cons.mp hy with rfl | h1
    · exact le_trans (le_max_left _ _) (ih _ _ (List.mem_cons_self _ _))
    rcases List.mem_cons.mp h1 with rfl | h2
    · exact le_trans (le_max_right _ _) (ih _ _ (List.mem_cons_self _ _))
    · exact ih _ _ (List.mem_cons_of_mem _ h2)

lemma foldl_min_mem (xs : List ℚ) : ∀ x, xs.foldl Min.min x ∈ x :: xs := by
  induction xs with
  | nil => intro x; simp
  | cons y ys ih =>
    intro x
    have h := ih (Min.min x y)
    rcases min_choice x y with hc | hc <;>
      · rw [List.foldl_cons]
        rcases List.mem_cons.mp h with h1 | h1 <;> simp [hc] at h1 ⊢ <;> simp [h1]

lemma foldl_min_le (xs : List ℚ) : ∀ x, ∀ y ∈ x :: xs, xs.foldl Min.min x ≤ y := by
  induction xs with
  | nil => intro x y hy; simp at hy; simp [hy]
  | cons z zs ih =>
    intro x y hy
    rw [List.foldl_cons]
    rcases List.mem_cons.mp hy with rfl | h1
    · exact le_trans (ih _ _ (List.mem_cons_self _ _)) (min_le_left _ _)
    rcases List.mem_cons.mp h1 with rfl | h2
    · exact le_trans (ih _ _ (List.mem_cons_self _ _)) (min_le_right _ _)
    · exact ih _ _ (List.mem_cons_of_mem _ h2)

lemma python_max_is_max (vs : List ℚ) (h : vs ≠ []) :
    ∃ m, python_max vs = some m ∧ m ∈ vs ∧ ∀ y ∈ vs, y ≤ m := by
  cases vs with
  | nil => exact absurd rfl h
  | cons x xs =>
    exact ⟨xs.foldl Max.max x, rfl, foldl_max_mem xs x, le_foldl_max xs x⟩

lemma python_min_is_min (vs : List ℚ) (h : vs ≠ []) :
    ∃ m, python_min vs = some m ∧ m ∈ vs ∧ ∀ y ∈ vs, m ≤ y := by
  cases vs with
  | nil => exact absurd rfl h
  | cons x xs =>
    exact ⟨xs.foldl Min.min x, rfl, foldl_min_mem xs x, foldl_min_le xs x⟩

end ClimateStats

namespace ClimateStats

lemma spec_first_seen_distinct_cons (x : StationInfo) (xs : List StationInfo) :
    spec_first_seen_distinct (x :: xs)
      = x :: spec_first_seen_distinct (xs.filter (fun y => decide (y ≠ x))) := by
  simp [spec_first_seen_distinct]

lemma unique_fold (l : List StationInfo) :
    ∀ acc, List.foldl
        (fun acc s => if s ∈ acc then acc else acc ++ [s]) acc l
      = acc ++ spec_first_seen_distinct (l.filter (fun y => decide (y ∉ acc))) := by
  induction l with
  | nil => intro acc; simp [spec_first_seen_distinct]
  | cons x xs ih =>
    intro acc
    by_cases hx : x ∈ acc
    · rw [List.foldl_cons]
      simp only [if_pos hx]
      rw [ih acc]
      congr 2
      rw [List.filter_cons]
      simp [hx]
    · rw [List.foldl_cons]
      simp only [if_neg hx]
      rw [ih (acc ++ [x])]
      rw [List.filter_cons]
      have hpx : decide (x ∉ acc) = true := by simp [hx]
      rw [if_pos hpx, spec_first_seen_distinct_cons]
      have hfil :
          (xs.filter (fun y => decide (y ∉ acc))).filter (fun y => decide (y ≠ x))
            = xs.filter (fun y => decide (y ∉ acc ++ [x])) := by
        rw [List.filter_filter]
        apply List.filter_congr
        intro a _
        by_cases h1 : a = x <;> by_cases h2 : a ∈ acc <;> simp [h1, h2]
      rw [hfil]
      simp

lemma unique_stations_eq_spec (l : List StationInfo) :
    unique_stations l = spec_first_seen_distinct l := by
  unfold unique_stations
  rw [unique_fold l []]
  have h : l.filter (fun y => decide (y ∉ ([] : List StationInfo))) = l := by
    apply List.filter_eq_self.mpr
    intro a _
    simp
  rw [h]
  simp

end ClimateStats

namespace ClimateStats

lemma check_wmo (p : ℚ) (md cm : ℕ) :
    check_missing_data_options (.str "WMO") p md cm
      = if md = 0 ∨ cm = 0 then .ok "OK"
        else if md ≥ 11 ∨ cm ≥ 5 then
          .ok "WMO criteria met: Missing or invalid month"
        else .ok "OK" := rfl

/-- C6: `calculate_consecutive_missing_days` returns the maximum, over all
maximal contiguous runs of the missing sentinel, of that run's length, and
returns 0 on a sequence with no missing entries. -/
theorem consecutive_missing_days_is_longest_run (l : List (Option ℚ)) :
    calculate_consecutive_missing_days l = (spec_missing_runs l).foldr max 0 ∧
    ((∀ x ∈ l, x ≠ none) → calculate_consecutive_missing_days l = 0) :=
  ⟨ccmd_eq_spec_max_run l, fun h => (ccmd_eq_zero_iff l).mpr h⟩

/-- Witness for C6: an all-non-missing sequence gives longest run 0. -/
theorem consecutive_missing_days_is_longest_run_witness :
    calculate_consecutive_missing_days [some 1, some 2] = 0 :=
  (consecutive_missing_days_is_longest_run [some 1, some 2]).2 (by decide)

/-- C10: a value sequence has zero missing days iff it has a zero longest
missing run, so the WMO branch's disjunctive first check on the two
quantities computed from one sequence is equivalent to checking the longest
run alone. -/
theorem missing_days_zero_iff_run_zero (l : List (Option ℚ)) :
    (calculate_missing_days l = 0 ↔ calculate_consecutive_missing_days l = 0) ∧
    ((calculate_missing_days l = 0 ∨ calculate_consecutive_missing_days l = 0)
        ↔ calculate_consecutive_missing_days l = 0) ∧
    ∀ p : ℚ, check_missing_data_options (.str "WMO") p
        (calculate_missing_days l) (calculate_consecutive_missing_days l)
      = if calculate_consecutive_missing_days l = 0 then Except.ok "OK"
        else if 11 ≤ calculate_missing_days l
            ∨ 5 ≤ calculate_consecutive_missing_days l then
          Except.ok "WMO criteria met: Missing or invalid month"
        else Except.ok "OK" := by
  have hiff : calculate_missing_days l = 0
      ↔ calculate_consecutive_missing_days l = 0 := by
    rw [calculate_missing_days_eq_zero_iff, ccmd_eq_zero_iff]
  refine ⟨hiff, ⟨fun h => h.elim (fun h1 => hiff.mp h1) id, Or.inr⟩, ?_⟩
  intro p
  rw [check_wmo]
  by_cases h : calculate_consecutive_missing_days l = 0
  · rw [if_pos (Or.inr h), if_pos h]
  · rw [if_neg (fun hd => h (hd.elim (fun h1 => hiff.mp h1) id)), if_neg h]

/-- C1 counterexample: at the pair `missing_days = 0`,
`longest_missing_run = 5` the longest run is non-zero and meets the `>= 5`
threshold, so the claim predicts the criteria-met message, but the code
returns `"OK"` because its first check also tests `missing_days == 0`. -/
theorem wmo_run_only_counterexample :
    check_missing_data_options (.str "WMO") 0 0 5 = .ok "OK" ∧
    (5 : ℕ) ≠ 0 ∧ (5 : ℕ) ≥ 5 ∧
    check_missing_data_options (.str "WMO") 0 0 5
      ≠ .ok "WMO criteria met: Missing or invalid month" := by
  refine ⟨rfl, by decide, by decide, fun hc => ?_⟩
  have h1 : check_missing_data_options (.str "WMO") 0 0 5 = .ok "OK" := rfl
  rw [h1] at hc
  exact absurd (Except.ok.inj hc) (by decide)

/-- C1 (amended): for policy `"WMO"`, the result is `"OK"` whenever
`missing_days = 0` or `longest_missing_run = 0`; otherwise it is the
criteria-met message iff `missing_days >= 11` or `longest_missing_run >= 5`,
and `"OK"` otherwise; the three example pairs (10,4), (11,4), (3,5) behave
as listed. -/
theorem wmo_policy_classification (p : ℚ) (md cm : ℕ) :
    ((md = 0 ∨ cm = 0) →
        check_missing_data_options (.str "WMO") p md cm = .ok "OK") ∧
    (md ≠ 0 → cm ≠ 0 →
      ((check_missing_data_options (.str "WMO") p md cm
          = .ok "WMO criteria met: Missing or invalid month")
        ↔ (11 ≤ md ∨ 5 ≤ cm)) ∧
      (¬(11 ≤ md ∨ 5 ≤ cm) →
        check_missing_data_options (.str "WMO") p md cm = .ok "OK")) ∧
    check_missing_data_options (.str "WMO") p 10 4 = .ok "OK" ∧
    check_missing_data_options (.str "WMO") p 11 4
      = .ok "WMO criteria met: Missing or invalid month" ∧
    check_missing_data_options (.str "WMO") p 3 5
      = .ok "WMO criteria met: Missing or invalid month" := by
  refine ⟨?_, ?_, ?_, ?_, ?_⟩
  · intro h
    rw [check_wmo, if_pos h]
  · intro hmd hcm
    rw [check_wmo, if_neg (fun hd => hd.elim hmd hcm)]
    constructor
    · constructor
      · intro heq
        by_contra hth
        rw [if_neg hth] at heq
        exact absurd (Except.ok.inj heq) (by decide)
      · intro hth
        rw [if_pos hth]
    · intro hth
      rw [if_neg hth]
  · rw [check_wmo]
    norm_num
  · rw [check_wmo]
    norm_num
  · rw [check_wmo]
    norm_num

/-- Witness for C1 (amended) at concrete inputs. -/
theorem wmo_policy_classification_witness :
    check_missing_data_options (.str "WMO") 0 12 3
      = .ok "WMO criteria met: Missing or invalid month" :=
  ((wmo_policy_classification 0 12 3).2.1 (by decide) (by decide)).1.mpr
    (Or.inl (by decide))

end ClimateStats

namespace ClimateStats

/-- C2 (code bug): under policy 10, percentage 10.01 makes the
`climate_stats.py` function raise `NameError` on the undefined name
`percentage_missing_data` instead of returning the filtered string; the
inclusive boundary 10.00 still returns `"OK"`, and the `test.py` duplicate
of the same function returns the descriptive filtered string carrying both
values. -/
theorem percentage_policy_name_error :
    check_missing_data_options (.int 10) (1001 / 100) 0 0
      = .error (.nameError "percentage_missing_data") ∧
    check_missing_data_options (.int 10) 10 0 0 = .ok "OK" ∧
    TestPy.check_missing_data_options (.int 10) (1001 / 100) 0 0
      = .ok (TestPy.filtered_message (1001 / 100) 10) := by
  refine ⟨?_, ?_, ?_⟩
  · unfold check_missing_data_options
    rw [if_neg (by decide), if_neg (by decide), if_pos rfl,
      if_pos (by norm_num)]
  · unfold check_missing_data_options
    rw [if_neg (by decide), if_neg (by decide), if_pos rfl,
      if_neg (by norm_num)]
  · unfold TestPy.check_missing_data_options
    rw [if_neg (by decide), if_neg (by decide), if_pos rfl,
      if_pos (by norm_num)]

/-- C3 (code bug): `climate_stats()` passes the int `missing_days` — not the
ordered value sequence — to `calculate_consecutive_missing_days`, whose
`for` loop then raises `TypeError`, so the longest-run value handed to
classification is never obtained by scanning the value sequence; the
function itself would compute that scan if handed the list. -/
theorem consecutive_step_type_error (valuesResultsList : List (Option ℚ)) :
    climate_stats_consecutive_step valuesResultsList
      = .error (.typeError "int object is not iterable") ∧
    calculate_consecutive_missing_days_dyn (.listVal valuesResultsList)
      = .ok (calculate_consecutive_missing_days valuesResultsList) :=
  ⟨rfl, rfl⟩

/-- C4: on a sequence whose non-missing subsequence is non-empty,
`calculate_statistics` reports its length as total, the rounded arithmetic
mean, the true maximum and minimum, and the strictly-above, strictly-below
and exactly-equal threshold counts, each when requested; the spec's
concrete example evaluates as stated. -/
theorem calculate_statistics_nonempty (calcs : List String)
    (data : List (Option ℚ)) (t : ℚ) (h : data.filterMap id ≠ []) :
    ((calculate_statistics calcs data t).total
        = (data.filterMap id).length ∧
     ("mean" ∈ calcs → (calculate_statistics calcs data t).mean
        = some (round2 ((data.filterMap id).sum
            / (data.filterMap id).length))) ∧
     ("max" ∈ calcs → ∃ m, (calculate_statistics calcs data t).max = some m ∧
        m ∈ data.filterMap id ∧ ∀ y ∈ data.filterMap id, y ≤ m) ∧
     ("min" ∈ calcs → ∃ m, (calculate_statistics calcs data t).min = some m ∧
        m ∈ data.filterMap id ∧ ∀ y ∈ data.filterMap id, m ≤ y) ∧
     ("count above threshold" ∈ calcs →
        (calculate_statistics calcs data t).count_above
          = some ((data.filterMap id).countP (fun v => decide (v > t)))) ∧
     ("count below threshold" ∈ calcs →
        (calculate_statistics calcs data t).count_below
          = some ((data.filterMap id).countP (fun v => decide (v < t)))) ∧
     ("count equal threshold" ∈ calcs →
        (calculate_statistics calcs data t).count_equal
          = some ((data.filterMap id).countP (fun v => decide (v = t))))) ∧
    calculate_statistics ["mean", "max", "min", "count above threshold",
        "count below threshold", "count equal threshold"]
        [some 1, some 2, none, some 3] 2
      = ⟨3, some 2, some 3, some 1, 2, some 1, some 1, some 1⟩ := by
  constructor
  · simp only [calculate_statistics, if_pos h]
    refine ⟨trivial, ?_, ?_, ?_, ?_, ?_, ?_⟩
    · intro hc; simp [if_pos hc]
    · intro hc; simp only [if_pos hc]; exact python_max_is_max _ h
    · intro hc; simp only [if_pos hc]; exact python_min_is_min _ h
    · intro hc; simp [if_pos hc]
    · intro hc; simp [if_pos hc]
    · intro hc; simp [if_pos hc]
  · norm_num [calculate_statistics, python_max, python_min, round2,
      List.filterMap, List.countP, List.countP.go, max_def, min_def,
      round_eq]
    exact fun hc => absurd hc (List.cons_ne_nil _ _)

/-- Witness for C4: the theorem applied at the spec's example input. -/
theorem calculate_statistics_nonempty_witness :
    (calculate_statistics ["mean"] [some 1, some 2, none, some 3] 2).total = 3 :=
  (calculate_statistics_nonempty ["mean"] [some 1, some 2, none, some 3] 2
    (by decide)).1.1

/-- C5: whenever every entry of the value sequence is missing (the filtered
subsequence is empty), `calculate_statistics` reports total 0 and every
numeric field absent, whatever calculations were requested. -/
theorem calculate_statistics_all_missing (calcs : List String)
    (data : List (Option ℚ)) (t : ℚ) (h : data.filterMap id = []) :
    calculate_statistics calcs data t
      = { total := 0, mean := none, max := none, min := none, threshold := t,
          count_above := none, count_below := none, count_equal := none } := by
  simp only [calculate_statistics, h]
  simp

/-- Witness for C5: the all-missing sequence with all six calculations
requested. -/
theorem calculate_statistics_all_missing_witness :
    calculate_statistics ["mean", "max", "min", "count above threshold",
        "count below threshold", "count equal threshold"] [none, none] 2
      = { total := 0, mean := none, max := none, min := none, threshold := 2,
          count_above := none, count_below := none, count_equal := none } :=
  calculate_statistics_all_missing _ [none, none] 2 (by decide)

/-- C7: the missing-data percentage step computes
`round(100 * missing_count / total_record_count, 2)` and fails with the
division-by-zero condition exactly when the total record count is 0. -/
theorem missing_percentage_formula (missing_data es_count : ℕ) :
    (es_count = 0 → climate_stats_percentage_step missing_data es_count
        = .error .zeroDivisionError) ∧
    (es_count ≠ 0 → climate_stats_percentage_step missing_data es_count
        = .ok (spec_missing_percentage missing_data es_count)) := by
  constructor
  · intro h
    simp [climate_stats_percentage_step, h]
  · intro h
    simp only [climate_stats_percentage_step, if_neg h]
    unfold spec_missing_percentage
    have harg : (missing_data : ℚ) / (es_count : ℚ) * 100
        = 100 * (missing_data : ℚ) / (es_count : ℚ) := by ring
    rw [harg]

/-- Witness for C7 at concrete inputs. -/
theorem missing_percentage_formula_witness :
    climate_stats_percentage_step 3 0 = .error .zeroDivisionError ∧
    climate_stats_percentage_step 1 4 = .ok (spec_missing_percentage 1 4) :=
  ⟨(missing_percentage_formula 3 0).1 rfl,
   (missing_percentage_formula 1 4).2 (by decide)⟩

/-- C8: for every policy value other than None, 5, 10, 15 and "WMO", the
function reaches its return with the status name unassigned, so an error is
raised and propagates; no classification string is ever returned. -/
theorem invalid_option_propagates (opt : MissingDataOption) (p : ℚ)
    (md cm : ℕ) (h1 : opt ≠ .pyNone) (h2 : opt ≠ .int 5) (h3 : opt ≠ .int 10)
    (h4 : opt ≠ .int 15) (h5 : opt ≠ .str "WMO") :
    check_missing_data_options opt p md cm
      = .error (.unboundLocalError "missing_data_option_status") ∧
    ∀ s : String, check_missing_data_options opt p md cm ≠ .ok s := by
  have hmain : check_missing_data_options opt p md cm
      = .error (.unboundLocalError "missing_data_option_status") := by
    unfold check_missing_data_options
    rw [if_neg h1, if_neg h2, if_neg h3, if_neg h4, if_neg h5]
  refine ⟨hmain, fun s hs => ?_⟩
  rw [hmain] at hs
  exact Except.noConfusion hs

/-- Witness for C8 at a concrete unrecognized policy value. -/
theorem invalid_option_propagates_witness :
    check_missing_data_options (.str "XYZ") 0 0 0
      = .error (.unboundLocalError "missing_data_option_status") :=
  (invalid_option_propagates (.str "XYZ") 0 0 0 (by decide) (by decide)
    (by decide) (by decide) (by decide)).1

/-- C9: the deduplication loop returns the distinct station identity tuples
in first-seen order under structural tuple equality, and on the spec's
example keeps the first two tuples in order. -/
theorem unique_stations_first_seen :
    (∀ l : List StationInfo, unique_stations l = spec_first_seen_distinct l) ∧
    unique_stations [⟨"A", 1, [0, 0]⟩, ⟨"B", 2, [1, 1]⟩, ⟨"A", 1, [0, 0]⟩]
      = [⟨"A", 1, [0, 0]⟩, ⟨"B", 2, [1, 1]⟩] := by
  refine ⟨unique_stations_eq_spec, ?_⟩
  decide

end ClimateStats
